/-
Verification of the casandra REIT ESG-scoring pipeline against its
natural-language specification.

The Python sources are shallowly embedded: numeric values become `ℚ`
(Python floats in this code hold exact small decimals, so rational
arithmetic is faithful wherever the code compares or combines them);
Python `None` and IEEE `nan` are modelled explicitly where the code can
produce them; external backends (HTTP climate/elevation APIs, geocoder,
news feed, sentiment lexicon, pandas HTML table reader) are modelled as
explicit response inputs, since the code only branches on the data they
return.  String helpers (`.upper()`, `.strip()`, regex cleanups) are
implemented over the character lists of Lean strings so that every
definition evaluates on concrete inputs.
-/
import Mathlib

namespace Casandra

/-! ## Python string primitives -/

/-- Python's `str.upper()` (ASCII tickers), mapped over the characters. -/
def pyUpper (s : String) : String := String.mk (s.data.map Char.toUpper)

/-- Python's `str.lower()`, mapped over the characters. -/
def pyLower (s : String) : String := String.mk (s.data.map Char.toLower)

/-- Python's `str.strip()`: drop leading and trailing whitespace. -/
def pyStrip (s : String) : String :=
  String.mk (((s.data.dropWhile Char.isWhitespace).reverse.dropWhile
    Char.isWhitespace).reverse)

/-- Split a character list into the runs separated by characters
satisfying `sep` (runs may be empty, as with `re.split`). -/
def splitRuns (sep : Char → Bool) : List Char → List Char → List (List Char)
  | [], acc => [acc.reverse]
  | c :: rest, acc =>
      if sep c then acc.reverse :: splitRuns sep rest []
      else splitRuns sep rest (c :: acc)

/-- Join words with single spaces. -/
def joinWords : List (List Char) → List Char
  | [] => []
  | [w] => w
  | w :: ws => w ++ ' ' :: joinWords ws

/-- `_norm(s)` from property_parser.py: replace non-breaking spaces by
spaces, collapse every whitespace run (`\s+`) to one space, and strip. -/
def norm_ws (s : String) : String :=
  let chars := s.data.map (fun c => if c = Char.ofNat 160 then ' ' else c)
  String.mk (joinWords ((splitRuns Char.isWhitespace chars []).filter
    (fun w => w ≠ [])))

/-- Does the second character list start with the first? -/
def startsWithCL : List Char → List Char → Bool
  | [], _ => true
  | _ :: _, [] => false
  | a :: as, b :: bs => a = b && startsWithCL as bs

/-- Contiguous-substring test on character lists. -/
def containsSubCL (sub : List Char) : List Char → Bool
  | [] => sub.isEmpty
  | b :: rest => startsWithCL sub (b :: rest) || containsSubCL sub rest

/-- Substring test (Python's `cand in lc`). -/
def containsSub (sub s : String) : Bool := containsSubCL sub.data s.data

/-- A regex word character (`\w`): alphanumeric or underscore. -/
def isWordChar (c : Char) : Bool := c.isAlphanum || c = '_'

/-- `s.str.contains(r"(?i)\bSEGMENT\b")` from property_parser.py: some
maximal `\w`-run of the string is `segment` case-insensitively. -/
def containsWordSegment (s : String) : Bool :=
  ((splitRuns (fun c => !isWordChar c) s.data []).filter (fun w => w ≠ [])).any
    (fun w => String.mk (w.map Char.toLower) = "segment")

/-- Scanner for `stripFootnotes`, structurally recursive on a fuel that
starts at the list's length (every step consumes at least one character,
so the fuel never runs out). -/
def stripFootnotesF : ℕ → List Char → List Char
  | 0, _ => []
  | _ + 1, [] => []
  | fuel + 1, '(' :: rest =>
      match rest.dropWhile Char.isDigit with
      | ')' :: tail =>
          if rest.takeWhile Char.isDigit ≠ [] then stripFootnotesF fuel tail
          else '(' :: stripFootnotesF fuel rest
      | _ => '(' :: stripFootnotesF fuel rest
  | fuel + 1, c :: rest => c :: stripFootnotesF fuel rest

/-- `.str.replace(r"\(\d+\)", "")` from property_parser.py: delete every
parenthesized digit-run footnote marker. -/
def stripFootnotes (l : List Char) : List Char := stripFootnotesF l.length l

/-- Scanner for `collapseWs2`, fuelled like `stripFootnotesF`. -/
def collapseWs2F : ℕ → List Char → List Char
  | 0, _ => []
  | _ + 1, [] => []
  | fuel + 1, c :: rest =>
      if c.isWhitespace && (match rest with | d :: _ => d.isWhitespace | [] => false) then
        ' ' :: collapseWs2F fuel (rest.dropWhile Char.isWhitespace)
      else c :: collapseWs2F fuel rest

/-- `.str.replace(r"\s{2,}", " ")` from property_parser.py: collapse
every whitespace run of length at least two to a single space (a lone
whitespace character is left as it is). -/
def collapseWs2 (l : List Char) : List Char := collapseWs2F l.length l

/-! ## carbon_intensity.py -/

/-- The value space of the Python expression feeding `carbon_score_0_100`:
Python `None` (`Optional[float]`), IEEE `nan` (produced by `float(...)`
of a missing CSV cell and propagated through `*` and `/`), or an ordinary
finite float, modelled as a rational. -/
inductive PyVal where
  | none
  | nan
  | num (q : ℚ)
deriving DecidableEq, Repr

/-- `carbon_score_0_100(kg_per_sqm)` from carbon_intensity.py:
`None → 50.0`, then the chain `< 3 → 10`, `< 8 → 35`, `< 15 → 60`,
`< 25 → 80`, else `95`.  On `nan` every Python `<` comparison is false,
so the chain falls through to `95.0`. -/
def carbon_score_0_100 : PyVal → ℚ
  | .none => 50
  | .nan => 95
  | .num q =>
      if q < 3 then 10
      else if q < 8 then 35
      else if q < 15 then 60
      else if q < 25 then 80
      else 95

/-- One row of the curated carbon CSV.  A missing numeric cell is read by
pandas as `nan`, and the code's `float(...)` keeps it `nan`; we model a
missing cell as `Option.none`. -/
structure CarbonRow where
  ticker : String
  scope12_tonnes_co2e : Option ℚ
  gross_leasable_area_sqm : Option ℚ
deriving DecidableEq, Repr

/-- `carbon_intensity_from_csv(csv_path, ticker)` from carbon_intensity.py:
take the first row whose ticker matches case-insensitively (`None` if no
match), read `t` and `a` as floats (a missing cell gives `nan`), return
`None` when `a <= 0` (false when `a` is `nan`), else `t*1000/a`
(`nan` when either operand is `nan`). -/
def carbon_intensity_from_csv (rows : List CarbonRow) (ticker : String) : PyVal :=
  match rows.find? (fun r => pyUpper r.ticker = pyUpper ticker) with
  | Option.none => PyVal.none
  | Option.some r =>
      match r.gross_leasable_area_sqm with
      | Option.none => PyVal.nan       -- a = nan: `a <= 0` is false, t*1000/a = nan
      | Option.some a =>
          if a ≤ 0 then PyVal.none
          else
            match r.scope12_tonnes_co2e with
            | Option.none => PyVal.nan  -- t = nan: t*1000/a = nan
            | Option.some t => PyVal.num (t * 1000 / a)

/-! ## climate_risk.py -/

/-- Response of the Open-Elevation backend as `elevation_meters` sees it:
`unavailable` covers a non-200 status as well as a 200 body without a
non-empty `results` list (both take the `return 50.0` branches), `ok e`
is a body carrying elevation `e`. -/
inductive ElevResp where
  | unavailable
  | ok (elev : ℚ)
deriving DecidableEq, Repr

/-- `elevation_meters(lat, lon)` from climate_risk.py: the backend's
elevation on success, and the literal `50.0` (meters) on any failure. -/
def elevation_meters : ElevResp → ℚ
  | .unavailable => 50
  | .ok e => e

/-- `flood_risk_score(lat, lon)` from climate_risk.py: thresholds the
elevation via `<3→95, <10→80, <50→55, <200→30, else→15`. -/
def flood_risk_score (r : ElevResp) : ℚ :=
  let elev := elevation_meters r
  if elev < 3 then 95
  else if elev < 10 then 80
  else if elev < 50 then 55
  else if elev < 200 then 30
  else 15

/-- Response of the Open-Meteo backend as `heat_risk_score` sees it:
`unavailable` is a non-200 status (the `return 50.0` branch); `ok temps`
is a 200 body whose `daily.temperature_2m_max` list is `temps` — when the
field is missing the code substitutes the default list `[30]`, so that
case is `ok [30]`. -/
inductive HeatResp where
  | unavailable
  | ok (temps : List ℚ)
deriving DecidableEq, Repr

/-- `heat_risk_score(lat, lon)` from climate_risk.py: 50.0 when the
backend is unavailable; otherwise take the maximum `mx` of the returned
temperature list and map it via `max(0, min(100, (mx − 30) × 4 + 20))`.
Python's `max` of an empty list raises, so that case returns no value. -/
def heat_risk_score : HeatResp → Option ℚ
  | .unavailable => Option.some 50
  | .ok [] => Option.none
  | .ok (t :: ts) =>
      Option.some (max 0 (min 100 ((ts.foldl max t - 30) * 4 + 20)))

/-- `climate_risk_0_100(lat, lon)` from climate_risk.py: the mean of the
heat and flood sub-risks (no value when `heat_risk_score` raises). -/
def climate_risk_0_100 (hr : HeatResp) (er : ElevResp) : Option ℚ :=
  match heat_risk_score hr with
  | Option.none => Option.none
  | Option.some heat => Option.some ((heat + flood_risk_score er) / 2)

/-! ## governance_sentiment.py -/

/-- `governance_risk_score_0_100(name, lookback_days)` from
governance_sentiment.py, with the news backend and the VADER lexicon
modelled as the resulting list of per-headline compound values (the code
itself only averages those): zero headlines → 50.0, otherwise
`max(0, min(100, 50 − avg × 45))`. -/
def governance_risk_score_0_100 (compounds : List ℚ) : ℚ :=
  if compounds = [] then 50
  else
    let avg := compounds.sum / compounds.length
    max 0 (min 100 (50 - avg * 45))

/-! ## scoring.py and config.py -/

/-- The `WEIGHTS` dict from config.py. -/
structure Weights where
  climate : ℚ
  carbon : ℚ
  gov : ℚ
deriving DecidableEq, Repr

/-- config.py default: equal thirds. -/
def WEIGHTS : Weights := ⟨1/3, 1/3, 1/3⟩

/-- Mathematical floor of a rational, computed on its reduced fraction
(`Int.fdiv` rounds the quotient toward −∞, so this is `⌊q⌋`). -/
def ratFloor (q : ℚ) : ℤ := Int.fdiv q.num q.den

/-- Python's `round(x, 2)`: scale by 100 and round half to even. -/
def pyRound2 (q : ℚ) : ℚ :=
  let x := q * 100
  let f := ratFloor x
  let r := x - f
  let n : ℤ :=
    if r < 1/2 then f
    else if 1/2 < r then f + 1
    else if f % 2 = 0 then f else f + 1
  (n : ℚ) / 100

/-- `combine_scores(climate_score, carbon_score, gov_score)` from
scoring.py, with the module-level `WEIGHTS` passed explicitly (the code
reads it from config.py): the weighted sum rounded to 2 decimals. -/
def combine_scores (w : Weights) (climate_score carbon_score gov_score : ℚ) : ℚ :=
  pyRound2 (w.climate * climate_score + w.carbon * carbon_score + w.gov * gov_score)

/-! ## price_projection.py -/

/-- The `Projections` dataclass from price_projection.py. -/
structure Projections where
  current_price : ℚ
  adj_pct_1y : ℚ
  price_1y : ℚ
  adj_pct_5y : ℚ
  price_5y : ℚ
  adj_pct_10y : ℚ
  price_10y : ℚ
deriving DecidableEq, Repr

/-- `_linear_adjustment(score, beta)` from price_projection.py:
clamp the score to [0, 100] and return `beta * (s − 50) / 50`. -/
def linear_adjustment (score beta : ℚ) : ℚ :=
  let s := max 0 (min 100 score)
  beta * (s - 50) / 50

/-- `project_prices_from_scores(...)` from price_projection.py, with the
source's default betas 0.10 / 0.20 / 0.30. -/
def project_prices_from_scores
    (current_price final_esg_1y final_esg_5y final_esg_10y : ℚ)
    (beta_1y : ℚ := 1/10) (beta_5y : ℚ := 2/10) (beta_10y : ℚ := 3/10) :
    Projections :=
  let adj1 := linear_adjustment final_esg_1y beta_1y
  let adj5 := linear_adjustment final_esg_5y beta_5y
  let adj10 := linear_adjustment final_esg_10y beta_10y
  { current_price := current_price
    adj_pct_1y := adj1
    price_1y := current_price * (1 + adj1)
    adj_pct_5y := adj5
    price_5y := current_price * (1 + adj5)
    adj_pct_10y := adj10
    price_10y := current_price * (1 + adj10) }

/-! ## demo_pipeline.py — the per-property climate loop of `score_reit` -/

/-- What one iteration of `score_reit`'s property loop observes for one
property, after the geocoder and the hazard backends have answered:
either a failure at one of the loop's `continue`/`failures.append`
branches, or a per-point climate score. -/
inductive PropOutcome where
  | missingAddress
  | geocodeException
  | noCoordinates
  | climateException
  | ok (score : ℚ)
deriving DecidableEq, Repr

/-- The loop body of `score_reit` in demo_pipeline.py: walk the
properties in order, appending each successful per-point climate score
to `c_scores` and each failure to the `failures` tally. -/
def score_reit_climate_loop (props : List PropOutcome) : List ℚ × ℕ :=
  props.foldl
    (fun acc p =>
      match p with
      | .ok s => (acc.1 ++ [s], acc.2)
      | _ => (acc.1, acc.2 + 1))
    ([], 0)

/-- The properties of the run that produced a climate score, in order. -/
def successes (props : List PropOutcome) : List ℚ :=
  props.filterMap (fun p => match p with | .ok s => Option.some s | _ => Option.none)

/-- `climate = (sum(c_scores) / len(c_scores)) if c_scores else 50.0`
from `score_reit` in demo_pipeline.py. -/
def reit_climate_score (props : List PropOutcome) : ℚ :=
  let c := (score_reit_climate_loop props).1
  if c = [] then 50 else c.sum / c.length

/-- `"n_properties_used": len(c_scores)` from `score_reit`. -/
def n_properties_used (props : List PropOutcome) : ℕ :=
  (score_reit_climate_loop props).1.length

/-- The carbon leg of `score_reit` in demo_pipeline.py: a total function
from the CSV rows and ticker to a score (the run never aborts on a
missing carbon signal). -/
def score_reit_carbon (rows : List CarbonRow) (ticker : String) : ℚ :=
  carbon_score_0_100 (carbon_intensity_from_csv rows ticker)

/-! ## property_parser.py -/

/-- A table as pandas' `read_html` hands it to the code: a header row of
column names and data rows of cells.  Default NA handling turns an empty
HTML cell into `NaN`, modelled as `Option.none`; a non-empty cell is its
text. -/
structure PTable where
  header : List String
  rows : List (List (Option String))

/-- `.astype(str)` on one cell: pandas reads an empty cell as `NaN`, and
`str(nan)` is the literal string `"nan"`; a present cell is unchanged. -/
def cellAsStr : Option String → String
  | Option.none => "nan"
  | Option.some s => s

/-- `_find_col(colnames, *candidates)` from property_parser.py: index of
the first column whose stripped lowercase name contains one of the
candidate substrings (the source returns the column label; returning the
index is the same lookup on a positional grid). -/
def find_col (cols : List String) (cands : List String) : Option ℕ :=
  cols.findIdx? (fun c => cands.any (fun cand => containsSub cand (pyLower (norm_ws c))))

/-- The banner labels dropped by `parse_property_addresses`. -/
def banner_labels : List String :=
  ["residential communities", "office building", "office buildings", "retail", "industrial"]

/-- Read a cell from a positional row (a short row pads with NA). -/
def cellAt (r : List (Option String)) (i : ℕ) : Option String :=
  r.getD i Option.none

/-- The per-table body of `parse_property_addresses` in
property_parser.py: normalize the header, require a property column and
a location column, run each cell through `astype(str)` and `_norm`,
drop banner rows (banner label with *empty-string* location — note an
empty HTML cell arrives as `"nan"`, not `""`, so such a row is kept) and
rows with an empty-string field, and emit
`"<property-cell>, <location-cell>"` for the rest in order. -/
def parse_table (t : PTable) : List String :=
  let cols := t.header.map norm_ws
  match find_col cols ["property", "properties"], find_col cols ["location"] with
  | Option.some ip, Option.some il =>
      t.rows.filterMap (fun r =>
        let p := norm_ws (cellAsStr (cellAt r ip))
        let l := norm_ws (cellAsStr (cellAt r il))
        let isBanner := l = "" ∧ banner_labels.contains (pyLower p)
        if p ≠ "" ∧ l ≠ "" ∧ ¬ isBanner then Option.some (p ++ ", " ++ l)
        else Option.none)
  | _, _ => []

/-- `parse_property_addresses(item2_html, ...)` from property_parser.py,
with pandas' `read_html` modelled as the list of parsed tables of the
fragment the code settles on: every qualifying table contributes its
records in order, concatenated. -/
def parse_property_addresses (tables : List PTable) : List String :=
  (tables.map parse_table).flatten

/-- `list(dict.fromkeys(...))` from `extract_addresses_from_table0_col0`:
keep the first occurrence of each string, in first-seen order.  `seen`
accumulates the strings already kept. -/
def dedupFirstSeen (seen : List String) : List String → List String
  | [] => []
  | s :: rest =>
      if s ∈ seen then dedupFirstSeen seen rest
      else s :: dedupFirstSeen (s :: seen) rest

/-- The footnote/whitespace cleanup step of
`extract_addresses_from_table0_col0`. -/
def clean_address (s : String) : String :=
  pyStrip (String.mk (collapseWs2 (stripFootnotes s.data)))

/-- `extract_addresses_from_table0_col0(cik)` from property_parser.py,
from the point where column 0 of table 0 is in hand: strip cells, drop
empties, drop a literal `property`/`properties` header cell
(case-insensitive full match), drop rows containing the word `SEGMENT`,
clean footnote markers and doubled whitespace, and deduplicate keeping
first-seen order. -/
def extract_addresses_from_table0_col0 (col0 : List String) : List String :=
  let s1 := (col0.map pyStrip).filter (fun s => s ≠ "")
  let s2 := s1.filter (fun s => ¬ (pyLower s = "property" ∨ pyLower s = "properties"))
  let s3 := s2.filter (fun s => ¬ containsWordSegment s = true)
  let s4 := s3.map clean_address
  dedupFirstSeen [] s4

/-! ## Helper lemmas -/

theorem ratFloor_intCast (n : ℤ) : ratFloor (n : ℚ) = n := by
  simp [ratFloor, Int.fdiv_one]

/-- `round(x, 2)` is the identity (up to scaling) on values that are an
integer number of hundredths. -/
theorem pyRound2_int (q : ℚ) (n : ℤ) (h : q * 100 = (n : ℚ)) :
    pyRound2 q = (n : ℚ) / 100 := by
  simp only [pyRound2, h, ratFloor_intCast]
  rw [if_pos (by norm_num)]

theorem mem_dedupFirstSeen (l : List String) :
    ∀ (seen : List String) (x : String),
      x ∈ dedupFirstSeen seen l ↔ (x ∈ l ∧ x ∉ seen) := by
  induction l with
  | nil => intro seen x; simp [dedupFirstSeen]
  | cons s rest ih =>
      intro seen x
      simp only [dedupFirstSeen]
      by_cases hs : s ∈ seen
      · rw [if_pos hs, ih]
        constructor
        · rintro ⟨hxr, hxs⟩
          exact ⟨List.mem_cons_of_mem _ hxr, hxs⟩
        · rintro ⟨hxl, hxs⟩
          rcases List.mem_cons.mp hxl with hx | hx
          · exact absurd (hx ▸ hs) hxs
          · exact ⟨hx, hxs⟩
      · rw [if_neg hs]
        simp only [List.mem_cons, ih, List.mem_cons]
        constructor
        · rintro (hx | ⟨hxr, hxs⟩)
          · exact ⟨Or.inl hx, hx ▸ hs⟩
          · exact ⟨Or.inr hxr, fun h => hxs (Or.inr h)⟩
        · rintro ⟨hx | hx, hxs⟩
          · exact Or.inl hx
          · by_cases hxeq : x = s
            · exact Or.inl hxeq
            · exact Or.inr ⟨hx, fun h => (by
                rcases h with h | h
                · exact hxeq h
                · exact hxs h)⟩

theorem nodup_dedupFirstSeen (l : List String) :
    ∀ seen : List String, (dedupFirstSeen seen l).Nodup := by
  induction l with
  | nil => intro seen; simp [dedupFirstSeen]
  | cons s rest ih =>
      intro seen
      simp only [dedupFirstSeen]
      by_cases hs : s ∈ seen
      · rw [if_pos hs]; exact ih seen
      · rw [if_neg hs]
        refine List.nodup_cons.mpr ⟨?_, ih (s :: seen)⟩
        intro hmem
        exact ((mem_dedupFirstSeen rest (s :: seen) s).mp hmem).2 (List.mem_cons_self s seen)

theorem sublist_dedupFirstSeen (l : List String) :
    ∀ seen : List String, List.Sublist (dedupFirstSeen seen l) l := by
  induction l with
  | nil => intro seen; simp [dedupFirstSeen]
  | cons s rest ih =>
      intro seen
      simp only [dedupFirstSeen]
      by_cases hs : s ∈ seen
      · rw [if_pos hs]; exact (ih seen).cons s
      · rw [if_neg hs]; exact (ih (s :: seen)).cons₂ s

theorem score_reit_loop_fst (props : List PropOutcome) :
    ∀ acc : List ℚ × ℕ,
      (props.foldl
        (fun acc p =>
          match p with
          | .ok s => (acc.1 ++ [s], acc.2)
          | _ => (acc.1, acc.2 + 1)) acc).1 = acc.1 ++ successes props := by
  induction props with
  | nil => intro acc; simp [successes]
  | cons p rest ih =>
      intro acc
      cases p <;>
        simp only [List.foldl_cons, successes, List.filterMap_cons] <;>
        rw [ih] <;> simp [successes]

/-! ## Theorems for C1 -/

/-- C1: for every defined intensity, `carbon_score_0_100` follows the
half-open breakpoints `<3→10, <8→35, <15→60, <25→80, else→95`, maps
`None` to exactly 50.0, and the eight boundary inputs map as listed. -/
theorem C1_carbon_breakpoints :
    carbon_score_0_100 PyVal.none = 50 ∧
    (∀ q : ℚ, q < 3 → carbon_score_0_100 (PyVal.num q) = 10) ∧
    (∀ q : ℚ, 3 ≤ q → q < 8 → carbon_score_0_100 (PyVal.num q) = 35) ∧
    (∀ q : ℚ, 8 ≤ q → q < 15 → carbon_score_0_100 (PyVal.num q) = 60) ∧
    (∀ q : ℚ, 15 ≤ q → q < 25 → carbon_score_0_100 (PyVal.num q) = 80) ∧
    (∀ q : ℚ, 25 ≤ q → carbon_score_0_100 (PyVal.num q) = 95) ∧
    carbon_score_0_100 (PyVal.num (299/100)) = 10 ∧
    carbon_score_0_100 (PyVal.num 3) = 35 ∧
    carbon_score_0_100 (PyVal.num (799/100)) = 35 ∧
    carbon_score_0_100 (PyVal.num 8) = 60 ∧
    carbon_score_0_100 (PyVal.num (1499/100)) = 60 ∧
    carbon_score_0_100 (PyVal.num 15) = 80 ∧
    carbon_score_0_100 (PyVal.num (2499/100)) = 80 ∧
    carbon_score_0_100 (PyVal.num 25) = 95 := by
  refine ⟨rfl, ?_, ?_, ?_, ?_, ?_, ?_, ?_, ?_, ?_, ?_, ?_, ?_, ?_⟩
  · intro q h1; simp only [carbon_score_0_100]; rw [if_pos h1]
  · intro q h1 h2; simp only [carbon_score_0_100]
    rw [if_neg (by linarith), if_pos h2]
  · intro q h1 h2; simp only [carbon_score_0_100]
    rw [if_neg (by linarith), if_neg (by linarith), if_pos h2]
  · intro q h1 h2; simp only [carbon_score_0_100]
    rw [if_neg (by linarith), if_neg (by linarith), if_neg (by linarith), if_pos h2]
  · intro q h1; simp only [carbon_score_0_100]
    rw [if_neg (by linarith), if_neg (by linarith), if_neg (by linarith),
      if_neg (by linarith)]
  all_goals simp only [carbon_score_0_100]; norm_num

/-- Witness for C1 at concrete inputs. -/
theorem C1_carbon_breakpoints_witness :
    carbon_score_0_100 (PyVal.num 5) = 35 :=
  C1_carbon_breakpoints.2.2.1 5 (by norm_num) (by norm_num)

/-! ## Theorems for C2 -/

/-- C2 counterexample: when the elevation backend is unavailable the
flood sub-risk is not 50 — `elevation_meters` returns 50.0 *meters*,
which the threshold table maps to 30. -/
theorem C2_flood_unavailable_counterexample :
    ¬ flood_risk_score ElevResp.unavailable = 50 := by
  decide

/-- C2 amended: when the elevation backend is unavailable the flood
sub-risk equals 30 (the defaulted elevation of 50.0 meters falls in the
`<200` bucket); for a returned elevation the threshold table
`<3→95, <10→80, <50→55, <200→30, else→15` applies. -/
theorem C2_flood_thresholds :
    flood_risk_score ElevResp.unavailable = 30 ∧
    (∀ e : ℚ, e < 3 → flood_risk_score (ElevResp.ok e) = 95) ∧
    (∀ e : ℚ, 3 ≤ e → e < 10 → flood_risk_score (ElevResp.ok e) = 80) ∧
    (∀ e : ℚ, 10 ≤ e → e < 50 → flood_risk_score (ElevResp.ok e) = 55) ∧
    (∀ e : ℚ, 50 ≤ e → e < 200 → flood_risk_score (ElevResp.ok e) = 30) ∧
    (∀ e : ℚ, 200 ≤ e → flood_risk_score (ElevResp.ok e) = 15) := by
  refine ⟨by decide, ?_, ?_, ?_, ?_, ?_⟩
  · intro e h1; simp only [flood_risk_score, elevation_meters]; rw [if_pos h1]
  · intro e h1 h2; simp only [flood_risk_score, elevation_meters]
    rw [if_neg (by linarith), if_pos h2]
  · intro e h1 h2; simp only [flood_risk_score, elevation_meters]
    rw [if_neg (by linarith), if_neg (by linarith), if_pos h2]
  · intro e h1 h2; simp only [flood_risk_score, elevation_meters]
    rw [if_neg (by linarith), if_neg (by linarith), if_neg (by linarith), if_pos h2]
  · intro e h1; simp only [flood_risk_score, elevation_meters]
    rw [if_neg (by linarith), if_neg (by linarith), if_neg (by linarith),
      if_neg (by linarith)]

/-- Witness for C2 at a concrete elevation. -/
theorem C2_flood_thresholds_witness :
    flood_risk_score (ElevResp.ok 7) = 80 :=
  C2_flood_thresholds.2.2.1 7 (by norm_num) (by norm_num)

/-! ## Theorems for C3 -/

/-- C3 counterexample: on a header Property/Location table whose first
valid row appears twice plus a banner row ("Retail" with an empty
location cell), `parse_property_addresses` outputs three records — the
duplicate is *not* collapsed, and the banner row is *not* dropped: its
empty cell reaches the code as the string `"nan"` (pandas `NaN` after
`astype(str)`), so the empty-location and banner masks never fire and
the row is emitted as `"Retail, nan"`. -/
theorem C3_duplicate_row_counterexample :
    parse_property_addresses
      [⟨["Property", "Location"],
        [[Option.some "One Penn Plaza", Option.some "New York"],
         [Option.some "One Penn Plaza", Option.some "New York"],
         [Option.some "Retail", Option.none]]⟩] =
      ["One Penn Plaza, New York", "One Penn Plaza, New York", "Retail, nan"] ∧
    ¬ (parse_property_addresses
      [⟨["Property", "Location"],
        [[Option.some "One Penn Plaza", Option.some "New York"],
         [Option.some "One Penn Plaza", Option.some "New York"],
         [Option.some "Retail", Option.none]]⟩]).Nodup := by
  constructor
  · rfl
  · decide

/-- C3 amended: `parse_property_addresses` performs no deduplication (a
duplicate row yields a duplicate record) and does not drop a banner row
whose location cell is empty — the empty cell arrives as the string
`"nan"`, so the example table yields the two valid addresses followed by
`"Retail, nan"`, in source order.  Dedup-by-exact-text with first-seen
order is done only by `extract_addresses_from_table0_col0` (via
`dict.fromkeys`), whose output has no duplicates, is a subsequence of
its cleaned input (first-seen order preserved), and keeps exactly the
set of cleaned inputs. -/
theorem C3_parse_and_dedup :
    parse_property_addresses
      [⟨["Property", "Location"],
        [[Option.some "One Penn Plaza", Option.some "New York"],
         [Option.some "Main Street Mall", Option.some "Albany"],
         [Option.some "Retail", Option.none]]⟩] =
      ["One Penn Plaza, New York", "Main Street Mall, Albany", "Retail, nan"] ∧
    (∀ l : List String, (dedupFirstSeen [] l).Nodup) ∧
    (∀ l : List String, List.Sublist (dedupFirstSeen [] l) l) ∧
    (∀ (l : List String) (x : String), x ∈ dedupFirstSeen [] l ↔ x ∈ l) ∧
    extract_addresses_from_table0_col0
      ["Property", "One Penn Plaza (1)", "One Penn Plaza", "Main Street Mall"] =
      ["One Penn Plaza", "Main Street Mall"] := by
  refine ⟨rfl, fun l => nodup_dedupFirstSeen l [], fun l => sublist_dedupFirstSeen l [], ?_, rfl⟩
  intro l x
  rw [mem_dedupFirstSeen]
  simp

/-! ## Theorems for C4 -/

/-- C4: zero headlines give governance risk exactly 50.0; a non-empty
list of compound values each in [−1, 1] gives
`clamp(0, 100, 50 − avg × 45)`, which equals the unclamped `50 − avg×45`;
all-positive compounds (+1) give 5.0 and all-negative (−1) give 95.0. -/
theorem C4_governance_risk :
    governance_risk_score_0_100 [] = 50 ∧
    (∀ l : List ℚ, l ≠ [] → (∀ x ∈ l, -1 ≤ x ∧ x ≤ 1) →
      governance_risk_score_0_100 l =
        max 0 (min 100 (50 - (l.sum / l.length) * 45)) ∧
      governance_risk_score_0_100 l = 50 - (l.sum / l.length) * 45) ∧
    (∀ n : ℕ, governance_risk_score_0_100 (List.replicate (n + 1) 1) = 5) ∧
    (∀ n : ℕ, governance_risk_score_0_100 (List.replicate (n + 1) (-1)) = 95) := by
  have key : ∀ l : List ℚ, l ≠ [] → (∀ x ∈ l, -1 ≤ x ∧ x ≤ 1) →
      governance_risk_score_0_100 l = 50 - (l.sum / l.length) * 45 := by
    intro l hne hb
    have hlen : (0 : ℚ) < l.length := by
      have : l.length ≠ 0 := fun h => hne (List.length_eq_zero.mp h)
      exact_mod_cast Nat.pos_of_ne_zero this
    have hsum_le : l.sum ≤ l.length := by
      have := List.sum_le_card_nsmul l 1 (fun x hx => (hb x hx).2)
      simpa [nsmul_eq_mul] using this
    have hsum_ge : -(l.length : ℚ) ≤ l.sum := by
      have := List.card_nsmul_le_sum l (-1) (fun x hx => (hb x hx).1)
      simp only [nsmul_eq_mul, mul_neg_one] at this
      linarith
    have havg_le : l.sum / l.length ≤ 1 := by
      rw [div_le_one hlen]; exact hsum_le
    have havg_ge : (-1 : ℚ) ≤ l.sum / l.length := by
      rw [le_div_iff₀ hlen]; linarith
    simp only [governance_risk_score_0_100, if_neg hne]
    rw [min_eq_right (by nlinarith), max_eq_right (by nlinarith)]
  have unfold_ne : ∀ l : List ℚ, l ≠ [] →
      governance_risk_score_0_100 l =
        max 0 (min 100 (50 - (l.sum / l.length) * 45)) := by
    intro l hne
    simp only [governance_risk_score_0_100, if_neg hne]
  refine ⟨rfl, fun l hne hb => ⟨unfold_ne l hne, key l hne hb⟩, ?_, ?_⟩
  · intro n
    have h := key (List.replicate (n + 1) 1) (by simp)
      (by intro x hx; rw [List.eq_of_mem_replicate hx]; norm_num)
    rw [h, List.sum_replicate, List.length_replicate]
    have : ((n : ℚ) + 1) ≠ 0 := by positivity
    field_simp
    ring
  · intro n
    have h := key (List.replicate (n + 1) (-1)) (by simp)
      (by intro x hx; rw [List.eq_of_mem_replicate hx]; norm_num)
    rw [h, List.sum_replicate, List.length_replicate]
    have : ((n : ℚ) + 1) ≠ 0 := by positivity
    field_simp
    ring

/-- Witness for C4 at a concrete headline set. -/
theorem C4_governance_risk_witness :
    governance_risk_score_0_100 [1, 1] = 5 :=
  C4_governance_risk.2.2.1 1

/-! ## Theorems for C5 -/

/-- C5: `score_reit`'s loop collects exactly the successful properties'
climate scores in order; the REIT climate score is their arithmetic mean
when at least one property succeeded and exactly 50.0 when none did; the
reported `n_properties_used` is the number of contributing properties. -/
theorem C5_climate_aggregate (props : List PropOutcome) :
    (score_reit_climate_loop props).1 = successes props ∧
    (successes props ≠ [] →
      reit_climate_score props =
        (successes props).sum / ((successes props).length : ℚ)) ∧
    (successes props = [] → reit_climate_score props = 50) ∧
    n_properties_used props = (successes props).length := by
  have hfst : (score_reit_climate_loop props).1 = successes props := by
    have := score_reit_loop_fst props ([], 0)
    simpa [score_reit_climate_loop] using this
  refine ⟨hfst, ?_, ?_, ?_⟩
  · intro hne
    simp only [reit_climate_score, hfst, if_neg hne]
  · intro he
    simp only [reit_climate_score, hfst, if_pos he]
  · simp only [n_properties_used, hfst]

/-- Witness for C5 on a run with two successes and one failure. -/
theorem C5_climate_aggregate_witness :
    reit_climate_score [PropOutcome.ok 40, PropOutcome.geocodeException,
      PropOutcome.ok 80] =
      (([40, 80] : List ℚ).sum / (([40, 80] : List ℚ).length : ℚ)) ∧
    n_properties_used [PropOutcome.ok 40, PropOutcome.geocodeException,
      PropOutcome.ok 80] = 2 := by
  have h := C5_climate_aggregate
    [PropOutcome.ok 40, PropOutcome.geocodeException, PropOutcome.ok 80]
  exact ⟨h.2.1 (by simp [successes]), h.2.2.2⟩

/-! ## Theorems for C6 -/

/-- C6: for every score triple and non-negative weight triple summing
to 1, `combine_scores` is the weighted sum rounded to 2 decimals, and in
particular full weight on climate sends (100, 0, 0) to 100.00 and equal
thirds send (40, 60, 80) to 60.00. -/
theorem C6_combine_scores (w : Weights) (c ca g : ℚ)
    (hc : 0 ≤ w.climate) (hca : 0 ≤ w.carbon) (hg : 0 ≤ w.gov)
    (hsum : w.climate + w.carbon + w.gov = 1) :
    combine_scores w c ca g = pyRound2 (w.climate * c + w.carbon * ca + w.gov * g) ∧
    combine_scores ⟨1, 0, 0⟩ 100 0 0 = 100 ∧
    combine_scores WEIGHTS 40 60 80 = 60 := by
  refine ⟨rfl, ?_, ?_⟩
  · show pyRound2 _ = _
    rw [pyRound2_int _ 10000 (by norm_num)]
    norm_num
  · show pyRound2 _ = _
    rw [pyRound2_int _ 6000 (by norm_num [WEIGHTS])]
    norm_num

/-- Witness for C6 with the config.py weights. -/
theorem C6_combine_scores_witness :
    combine_scores WEIGHTS 40 60 80 = 60 :=
  (C6_combine_scores WEIGHTS 40 60 80 (by norm_num [WEIGHTS]) (by norm_num [WEIGHTS])
    (by norm_num [WEIGHTS]) (by norm_num [WEIGHTS])).2.2

/-! ## Theorems for C7 -/

/-- C7: each horizon's projected price is
`current_price × (1 + beta × (clamp(0,100,score) − 50) / 50)`, the
argumentless call uses betas 0.10 / 0.20 / 0.30, a score of 50 at every
horizon leaves the price unchanged, and score 100 with beta 0.10 gives
adjustment +10% and projects 100.0 to 110.00. -/
theorem C7_price_projection (cp e1 e5 e10 b1 b5 b10 : ℚ) :
    (project_prices_from_scores cp e1 e5 e10 b1 b5 b10).price_1y =
      cp * (1 + b1 * (max 0 (min 100 e1) - 50) / 50) ∧
    (project_prices_from_scores cp e1 e5 e10 b1 b5 b10).price_5y =
      cp * (1 + b5 * (max 0 (min 100 e5) - 50) / 50) ∧
    (project_prices_from_scores cp e1 e5 e10 b1 b5 b10).price_10y =
      cp * (1 + b10 * (max 0 (min 100 e10) - 50) / 50) ∧
    project_prices_from_scores cp e1 e5 e10 =
      project_prices_from_scores cp e1 e5 e10 (1/10) (2/10) (3/10) ∧
    (project_prices_from_scores cp 50 50 50).price_1y = cp ∧
    (project_prices_from_scores cp 50 50 50).price_5y = cp ∧
    (project_prices_from_scores cp 50 50 50).price_10y = cp ∧
    (project_prices_from_scores 100 100 e5 e10 (1/10) b5 b10).adj_pct_1y = 1/10 ∧
    (project_prices_from_scores 100 100 e5 e10 (1/10) b5 b10).price_1y = 110 := by
  refine ⟨rfl, rfl, rfl, rfl, ?_, ?_, ?_, ?_, ?_⟩ <;>
    simp [project_prices_from_scores, linear_adjustment] <;> norm_num

/-- Witness for C7 at concrete arguments. -/
theorem C7_price_projection_witness :
    (project_prices_from_scores 100 100 50 50 (1/10) (2/10) (3/10)).price_1y = 110 :=
  (C7_price_projection 100 100 50 50 (1/10) (2/10) (3/10)).2.2.2.2.2.2.2.2

/-! ## Theorems for C8 -/

/-- C8 counterexample: the claim says a matched row with missing tonnage
gives the neutral carbon score 50.0; on the code it gives 95.0 — the
missing cell becomes `nan`, `nan <= 0` is false, the intensity is `nan`,
and every `<` breakpoint test on `nan` is false. -/
theorem C8_missing_tonnage_counterexample :
    ¬ carbon_score_0_100 (carbon_intensity_from_csv
        [⟨"SPG", Option.none, Option.some 100⟩] "SPG") = 50 := by
  decide

/-- C8 amended: no case-insensitive ticker match, or a matched row whose
area is ≤ 0, give an undefined intensity and the neutral carbon score
50.0; but a matched row with *missing* area or missing tonnage gives a
`nan` intensity which scores 95.0.  `score_reit`'s carbon leg is a total
function of the dataset, so the run is not aborted in any of these
cases. -/
theorem C8_carbon_missing_data (rows : List CarbonRow) (ticker : String) :
    (rows.find? (fun r => pyUpper r.ticker = pyUpper ticker) = Option.none →
      carbon_intensity_from_csv rows ticker = PyVal.none ∧
      score_reit_carbon rows ticker = 50) ∧
    (∀ r a, rows.find? (fun r => pyUpper r.ticker = pyUpper ticker) = Option.some r →
      r.gross_leasable_area_sqm = Option.some a → a ≤ 0 →
      carbon_intensity_from_csv rows ticker = PyVal.none ∧
      score_reit_carbon rows ticker = 50) ∧
    (∀ r, rows.find? (fun r => pyUpper r.ticker = pyUpper ticker) = Option.some r →
      r.gross_leasable_area_sqm = Option.none →
      carbon_intensity_from_csv rows ticker = PyVal.nan ∧
      score_reit_carbon rows ticker = 95) ∧
    (∀ r a, rows.find? (fun r => pyUpper r.ticker = pyUpper ticker) = Option.some r →
      r.gross_leasable_area_sqm = Option.some a → 0 < a →
      r.scope12_tonnes_co2e = Option.none →
      carbon_intensity_from_csv rows ticker = PyVal.nan ∧
      score_reit_carbon rows ticker = 95) := by
  refine ⟨?_, ?_, ?_, ?_⟩
  · intro hfind
    have h : carbon_intensity_from_csv rows ticker = PyVal.none := by
      simp only [carbon_intensity_from_csv, hfind]
    exact ⟨h, by simp only [score_reit_carbon, h, carbon_score_0_100]⟩
  · intro r a hfind harea hle
    have h : carbon_intensity_from_csv rows ticker = PyVal.none := by
      simp only [carbon_intensity_from_csv, hfind, harea]
      rw [if_pos hle]
    exact ⟨h, by simp only [score_reit_carbon, h, carbon_score_0_100]⟩
  · intro r hfind harea
    have h : carbon_intensity_from_csv rows ticker = PyVal.nan := by
      simp only [carbon_intensity_from_csv, hfind, harea]
    exact ⟨h, by simp only [score_reit_carbon, h, carbon_score_0_100]⟩
  · intro r a hfind harea hpos hton
    have h : carbon_intensity_from_csv rows ticker = PyVal.nan := by
      simp only [carbon_intensity_from_csv, hfind, harea, hton]
      rw [if_neg (by linarith)]
    exact ⟨h, by simp only [score_reit_carbon, h, carbon_score_0_100]⟩

/-- Witness for C8: a dataset with no matching ticker scores 50.0. -/
theorem C8_carbon_missing_data_witness :
    carbon_intensity_from_csv [⟨"VNO", Option.some 10, Option.some 100⟩] "SPG" =
      PyVal.none ∧
    score_reit_carbon [⟨"VNO", Option.some 10, Option.some 100⟩] "SPG" = 50 :=
  (C8_carbon_missing_data [⟨"VNO", Option.some 10, Option.some 100⟩] "SPG").1
    (by decide)

/-! ## Theorems for C9 -/

/-- C9: every sub-scorer output lies in [0, 100] — every value returned
by the heat sub-risk, the flood sub-risk for any backend response, every
value returned by the per-point climate score, the carbon score of any
intensity, and the governance risk of any headline set. -/
theorem C9_scores_in_range :
    (∀ (hr : HeatResp) (x : ℚ), heat_risk_score hr = Option.some x →
      0 ≤ x ∧ x ≤ 100) ∧
    (∀ er : ElevResp, 0 ≤ flood_risk_score er ∧ flood_risk_score er ≤ 100) ∧
    (∀ (hr : HeatResp) (er : ElevResp) (x : ℚ),
      climate_risk_0_100 hr er = Option.some x → 0 ≤ x ∧ x ≤ 100) ∧
    (∀ v : PyVal, 0 ≤ carbon_score_0_100 v ∧ carbon_score_0_100 v ≤ 100) ∧
    (∀ l : List ℚ, 0 ≤ governance_risk_score_0_100 l ∧
      governance_risk_score_0_100 l ≤ 100) := by
  have hheat : ∀ (hr : HeatResp) (x : ℚ), heat_risk_score hr = Option.some x →
      0 ≤ x ∧ x ≤ 100 := by
    intro hr x h
    cases hr with
    | unavailable =>
        simp only [heat_risk_score, Option.some.injEq] at h
        constructor <;> (rw [← h]; norm_num)
    | ok ts =>
        cases ts with
        | nil => simp [heat_risk_score] at h
        | cons t rest =>
            simp only [heat_risk_score, Option.some.injEq] at h
            rw [← h]
            exact ⟨le_max_left _ _,
              max_le (by norm_num) (min_le_left _ _)⟩
  have hflood : ∀ er : ElevResp,
      0 ≤ flood_risk_score er ∧ flood_risk_score er ≤ 100 := by
    intro er
    simp only [flood_risk_score]
    split
    · norm_num
    · split
      · norm_num
      · split
        · norm_num
        · split <;> norm_num
  refine ⟨hheat, hflood, ?_, ?_, ?_⟩
  · intro hr er x h
    simp only [climate_risk_0_100] at h
    cases hh : heat_risk_score hr with
    | none => rw [hh] at h; simp at h
    | some heat =>
        rw [hh] at h
        simp only [Option.some.injEq] at h
        have h1 := hheat hr heat hh
        have h2 := hflood er
        constructor <;> (rw [← h]; nlinarith [h1.1, h1.2, h2.1, h2.2])
  · intro v
    cases v with
    | none => exact ⟨by decide, by decide⟩
    | nan => exact ⟨by decide, by decide⟩
    | num q =>
        simp only [carbon_score_0_100]
        split
        · norm_num
        · split
          · norm_num
          · split
            · norm_num
            · split <;> norm_num
  · intro l
    by_cases hl : l = []
    · rw [hl]
      exact ⟨by decide, by decide⟩
    · simp only [governance_risk_score_0_100, if_neg hl]
      exact ⟨le_max_left _ _, max_le (by norm_num) (min_le_left _ _)⟩

/-- Witness for C9 at concrete backend responses. -/
theorem C9_scores_in_range_witness :
    0 ≤ (50 : ℚ) ∧ (50 : ℚ) ≤ 100 :=
  C9_scores_in_range.1 HeatResp.unavailable 50 rfl

/-! ## Theorems for C10 -/

/-- C10 (implicit): for a fixed positive current price and positive
betas, every horizon's projected price is monotone non-decreasing in
that horizon's final score, and a score above 50 projects a price
strictly above the current price. -/
theorem C10_projection_monotone (cp b : ℚ) (hcp : 0 < cp) (hb : 0 < b) :
    (∀ s₁ s₂ : ℚ, s₁ ≤ s₂ →
      (project_prices_from_scores cp s₁ s₁ s₁ b b b).price_1y ≤
        (project_prices_from_scores cp s₂ s₂ s₂ b b b).price_1y ∧
      (project_prices_from_scores cp s₁ s₁ s₁ b b b).price_5y ≤
        (project_prices_from_scores cp s₂ s₂ s₂ b b b).price_5y ∧
      (project_prices_from_scores cp s₁ s₁ s₁ b b b).price_10y ≤
        (project_prices_from_scores cp s₂ s₂ s₂ b b b).price_10y) ∧
    (∀ s : ℚ, 50 < s →
      cp < (project_prices_from_scores cp s s s b b b).price_1y ∧
      cp < (project_prices_from_scores cp s s s b b b).price_5y ∧
      cp < (project_prices_from_scores cp s s s b b b).price_10y) := by
  have hclamp_mono : ∀ s₁ s₂ : ℚ, s₁ ≤ s₂ →
      max 0 (min 100 s₁) ≤ max 0 (min 100 s₂) := fun s₁ s₂ h =>
    max_le_max le_rfl (min_le_min le_rfl h)
  have hprice_mono : ∀ s₁ s₂ : ℚ, s₁ ≤ s₂ →
      cp * (1 + linear_adjustment s₁ b) ≤ cp * (1 + linear_adjustment s₂ b) := by
    intro s₁ s₂ h
    have hc := hclamp_mono s₁ s₂ h
    simp only [linear_adjustment]
    have : b * (max 0 (min 100 s₁) - 50) / 50 ≤ b * (max 0 (min 100 s₂) - 50) / 50 := by
      apply div_le_div_of_nonneg_right _ (by norm_num)
      exact mul_le_mul_of_nonneg_left (by linarith) hb.le
    nlinarith
  have hstrict : ∀ s : ℚ, 50 < s → cp < cp * (1 + linear_adjustment s b) := by
    intro s hs
    have h1 : (50 : ℚ) < min 100 s := lt_min (by norm_num) hs
    have h2 : (50 : ℚ) < max 0 (min 100 s) := lt_of_lt_of_le h1 (le_max_right _ _)
    have hadj : 0 < linear_adjustment s b := by
      simp only [linear_adjustment]
      exact div_pos (mul_pos hb (by linarith)) (by norm_num)
    nlinarith
  exact ⟨fun s₁ s₂ h => ⟨hprice_mono s₁ s₂ h, hprice_mono s₁ s₂ h, hprice_mono s₁ s₂ h⟩,
    fun s hs => ⟨hstrict s hs, hstrict s hs, hstrict s hs⟩⟩

/-- Witness for C10 at concrete prices and scores. -/
theorem C10_projection_monotone_witness :
    (project_prices_from_scores 100 60 60 60 (1/10) (1/10) (1/10)).price_1y ≤
      (project_prices_from_scores 100 80 80 80 (1/10) (1/10) (1/10)).price_1y :=
  (((C10_projection_monotone 100 (1/10) (by norm_num) (by norm_num)).1 60 80
    (by norm_num))).1

end Casandra
